import Mathlib

/-!
Verification of the house-price prediction core of `syntecx_hub`.

The definitions below are shallow embeddings of the Python source:

* `ml/utils/model_evaluator.py` — `ModelExplainer._get_confidence_label`,
  `ModelExplainer.calculate_confidence_score`
* `ml/pipelines/model_training.py` — `ModelTrainer._select_best_model`
* `ml/pipelines/feature_engineering.py` — `FeatureEngineeringPipeline.transform`,
  `fit_transform`, `generate_synthetic_data`
* `app/services/ml_service.py` — `MLServices.predict_price` (price-range and
  confidence computation), `MLServices.what_if_analysis`

Python machine floats are modelled as exact rationals (`ℚ`) where the code
performs only field arithmetic and comparisons, and as exact reals (`ℝ`)
where `np.std` introduces a square root.  Non-finite IEEE values produced by
`0/0` and `x/0` are modelled explicitly by the `PyFloat` type.  Fallible code
(Python exceptions) is modelled with `Except`.
-/

namespace SyntecxHub

/-! ## Confidence label (`ModelExplainer._get_confidence_label`) -/

/-- Embedding of `ModelExplainer._get_confidence_label`
(`ml/utils/model_evaluator.py:240-247`):
`confidence < 0.4 → "Low"`, `elif confidence <= 0.7 → "Medium"`, else `"High"`. -/
def get_confidence_label (confidence_score : ℚ) : String :=
  if confidence_score < 2/5 then "Low"
  else if confidence_score ≤ 7/10 then "Medium"
  else "High"

/-! ## Price range (`MLServices.predict_price`, lines 77-86) -/

/-- Embedding of the price-range computation of `MLServices.predict_price`
(`app/services/ml_service.py:77-86`): `uncertainty_factor = (1 - confidence) * 0.10`,
`lower = prediction - prediction * uncertainty_factor`,
`upper = prediction + prediction * uncertainty_factor`, and when the two bounds
are equal they are replaced by `prediction * 0.95` and `prediction * 1.05`. -/
def price_range (prediction confidence_score : ℚ) : ℚ × ℚ :=
  let uncertainty_factor := (1 - confidence_score) * (1/10)
  let price_uncertainty := prediction * uncertainty_factor
  let lower_bound := prediction - price_uncertainty
  let upper_bound := prediction + price_uncertainty
  if lower_bound = upper_bound then
    (prediction * (95/100), prediction * (105/100))
  else
    (lower_bound, upper_bound)

/-! ## What-if comparison analysis (`MLServices.what_if_analysis`, lines 141-159) -/

/-- Errors raised by the comparison loop of `what_if_analysis`.  Python raises
`ZeroDivisionError` when a float is divided by `0.0`. -/
inductive AnalysisError where
  | zeroDivisionError
deriving DecidableEq, Repr

/-- Embedding of one iteration of the comparison loop of
`MLServices.what_if_analysis` (`app/services/ml_service.py:152-159`):
`price_change = scenario_price - base_price` and
`percentage_change = (price_change / base_price) * 100`.  The division is a
plain Python float division, so a zero `base_price` raises
`ZeroDivisionError`; there is no guard in the source. -/
def scenario_comparison (base_price scenario_price : ℚ) :
    Except AnalysisError (ℚ × ℚ) :=
  let price_change := scenario_price - base_price
  if base_price = 0 then Except.error AnalysisError.zeroDivisionError
  else Except.ok (price_change, price_change / base_price * 100)

/-- Embedding of the whole comparison loop of `MLServices.what_if_analysis`
(lines 152-159): the per-scenario `(price_impact, percentage_change)` pairs in
input order; the first zero-base division aborts the analysis with the raised
exception. -/
def comparison_analysis (base_price : ℚ) (scenario_prices : List ℚ) :
    Except AnalysisError (List (ℚ × ℚ)) :=
  match scenario_prices with
  | [] => Except.ok []
  | p :: rest =>
    match scenario_comparison base_price p with
    | Except.error e => Except.error e
    | Except.ok pair =>
      match comparison_analysis base_price rest with
      | Except.error e => Except.error e
      | Except.ok pairs => Except.ok (pair :: pairs)

/-! ## Model selection (`ModelTrainer._select_best_model`) -/

/-- The per-candidate scores used by model selection
(`ml/pipelines/model_training.py:73-80`); only the two fields consulted by
`_select_best_model` are kept. -/
structure ModelScores where
  test_rmse : ℚ
  test_r2 : ℚ
deriving DecidableEq, Repr

/-- An entry of `self.model_scores`: candidate name paired with its scores.
Python dicts preserve insertion order, so the mapping is modelled as an
ordered association list. -/
abbrev Candidate := String × ModelScores

/-- The qualification test of `_select_best_model`
(`ml/pipelines/model_training.py:116`):
`test_r2 >= ml_config.min_r2_threshold and test_rmse <= ml_config.min_rmse_threshold`,
with `min_r2_threshold = 0.7` and `min_rmse_threshold = 50000`
(`ml/config/ml_config.py:29-30`). -/
def qualifies (s : ModelScores) : Bool :=
  decide ((7:ℚ)/10 ≤ s.test_r2) && decide (s.test_rmse ≤ 50000)

/-- The update of the first selection loop once a candidate has passed the
threshold check (`model_training.py:118-121`): the accumulator holds
`(best_model_name, best_score)`, `none` standing for the initial
`best_model = None, best_score = float('inf')` state (any rmse compares
below infinity); replacement uses strict `<`. -/
def qualifyingUpdate (acc : Option (String × ℚ)) (p : Candidate) :
    Option (String × ℚ) :=
  match acc with
  | none => some (p.1, p.2.test_rmse)
  | some nb => if p.2.test_rmse < nb.2 then some (p.1, p.2.test_rmse) else some nb

/-- One step of the first selection loop (`model_training.py:111-121`):
apply the update only to candidates passing the threshold check. -/
def selectQualStep (acc : Option (String × ℚ)) (p : Candidate) :
    Option (String × ℚ) :=
  if qualifies p.2 then qualifyingUpdate acc p else acc

/-- The first selection loop of `_select_best_model`: lowest `test_rmse`
among threshold-qualifying candidates, strict `<` so the earliest-evaluated
candidate wins exact ties. -/
def selectByRmse (l : List Candidate) : Option (String × ℚ) :=
  l.foldl selectQualStep none

/-- One step of the fallback loop (`model_training.py:126-131`): the
accumulator holds `(best_model_name, best_r2)` initialised to `(None, -1)`. -/
def selectR2Step (acc : Option String × ℚ) (p : Candidate) : Option String × ℚ :=
  if acc.2 < p.2.test_r2 then (some p.1, p.2.test_r2) else acc

/-- The fallback loop of `_select_best_model`: highest `test_r2`, starting
from the sentinel `best_r2 = -1`. -/
def selectByR2 (l : List Candidate) : Option String × ℚ :=
  l.foldl selectR2Step (none, -1)

/-- Embedding of `ModelTrainer._select_best_model`
(`ml/pipelines/model_training.py:106-137`): run the threshold/rmse loop; if
it selected nothing, run the fallback highest-`test_r2` loop. -/
def select_best_model (l : List Candidate) : Option String :=
  match selectByRmse l with
  | some nb => some nb.1
  | none => (selectByR2 l).1

/-- Spec-side comparison step: keep the candidate with the lower `test_rmse`,
the earlier one on an exact tie. -/
def rmseUpdate (b p : Candidate) : Candidate :=
  if p.2.test_rmse < b.2.test_rmse then p else b

/-- Spec-side comparison step: keep the candidate with the higher `test_r2`,
the earlier one on an exact tie. -/
def r2Update (b p : Candidate) : Candidate :=
  if b.2.test_r2 < p.2.test_r2 then p else b

/-- Spec-side rendering of the selection policy, written from the spec's
words: the qualifying candidate with the lowest `test_rmse`
(earliest-evaluated wins ties). -/
def minByRmse : List Candidate → Option Candidate
  | [] => none
  | x :: xs => some (xs.foldl rmseUpdate x)

/-- Spec-side candidate with the highest `test_r2` (earliest wins ties). -/
def maxByR2 : List Candidate → Option Candidate
  | [] => none
  | x :: xs => some (xs.foldl r2Update x)

/-- Spec-side selection policy assembled from `minByRmse` and `maxByR2`. -/
def specSelectBestModel (l : List Candidate) : Option String :=
  match minByRmse (l.filter (fun p => qualifies p.2)) with
  | some p => some p.1
  | none => (maxByR2 l).map (fun p => p.1)

/-! ## Property records and scenario overrides
(`app/models/domain/prediction.py`, `MLServices.what_if_analysis` lines 126-139) -/

/-- A raw attribute value as Python stores it.  Validated requests hold
numbers (`num`), the `property_type` string (`str`), or optional values
(`optNum`/`optStr`); pydantic v1 does not validate on assignment
(`validate_assignment` is off), so after a `setattr` a field can hold any of
these shapes — the record therefore stores `FieldValue`s, not fixed-shape
values. -/
inductive FieldValue where
  | num (x : ℚ)
  | str (s : String)
  | optNum (x : Option ℚ)
  | optStr (s : Option String)
deriving DecidableEq, Repr

/-- Embedding of `PredictionRequest` (`app/models/domain/prediction.py:14-41`):
the fourteen caller-facing fields, each holding a raw attribute value. -/
structure PropertyRecord where
  area_sqft : FieldValue
  bedrooms : FieldValue
  bathrooms : FieldValue
  age_years : FieldValue
  property_type : FieldValue
  latitude : FieldValue
  longitude : FieldValue
  zip_code : FieldValue
  amenities_score : FieldValue
  distance_to_center : FieldValue
  school_rating : FieldValue
  crime_index : FieldValue
  market_trend : FieldValue
  environmental_score : FieldValue
deriving DecidableEq, Repr

/-- The names of the fields of `PredictionRequest` (its `__fields__`). -/
def property_field_names : List String :=
  ["area_sqft", "bedrooms", "bathrooms", "age_years", "property_type",
   "latitude", "longitude", "zip_code", "amenities_score",
   "distance_to_center", "school_rating", "crime_index", "market_trend",
   "environmental_score"]

/-- The error pydantic `BaseModel.__setattr__` raises for a key that is not a
model field: `ValueError('"PredictionRequest" object has no field "<key>"')`. -/
inductive SetAttrError where
  | objectHasNoField (key : String)
deriving DecidableEq, Repr

/-- Update of one named field of the record with the raw value `v`, exactly
as Python stores it (no shape check — assignment validation is off); a key
naming no field leaves the record unchanged.  This is the success path of
`setattr` only; the error path is `setattrBaseModel` below. -/
def setField (p : PropertyRecord) (key : String) (v : FieldValue) : PropertyRecord :=
  if key = "area_sqft" then { p with area_sqft := v }
  else if key = "bedrooms" then { p with bedrooms := v }
  else if key = "bathrooms" then { p with bathrooms := v }
  else if key = "age_years" then { p with age_years := v }
  else if key = "property_type" then { p with property_type := v }
  else if key = "latitude" then { p with latitude := v }
  else if key = "longitude" then { p with longitude := v }
  else if key = "zip_code" then { p with zip_code := v }
  else if key = "amenities_score" then { p with amenities_score := v }
  else if key = "distance_to_center" then { p with distance_to_center := v }
  else if key = "school_rating" then { p with school_rating := v }
  else if key = "crime_index" then { p with crime_index := v }
  else if key = "market_trend" then { p with market_trend := v }
  else if key = "environmental_score" then { p with environmental_score := v }
  else p

/-- pydantic `BaseModel.__setattr__` on a `PredictionRequest`: a key naming a
model field stores the value as given; any other key raises
`ValueError("object has no field")`. -/
def setattrBaseModel (p : PropertyRecord) (key : String) (v : FieldValue) :
    Except SetAttrError PropertyRecord :=
  if key ∈ property_field_names then Except.ok (setField p key v)
  else Except.error (SetAttrError.objectHasNoField key)

/-- `hasattr(scenario_property, key)`: true for the model's fields and for
every other attribute of the `BaseModel` instance — its methods and class
attributes (`dict`, `copy`, `json`, `Config`, …).  That non-field attribute
surface belongs to the pydantic library and varies with its version, so it
is the parameter `attrs`. -/
def hasattrBaseModel (attrs : List String) (key : String) : Bool :=
  decide (key ∈ property_field_names) || decide (key ∈ attrs)

/-- Embedding of one override application in `what_if_analysis`
(`app/services/ml_service.py:134-135`):
`if hasattr(scenario_property, key): setattr(scenario_property, key, value)`.
A key that is no attribute at all is silently skipped; a key that is an
attribute goes to `setattr`, which succeeds for fields and raises for
non-field attributes. -/
def applyOverride (attrs : List String) (p : PropertyRecord) (key : String)
    (v : FieldValue) : Except SetAttrError PropertyRecord :=
  if hasattrBaseModel attrs key then setattrBaseModel p key v else Except.ok p

/-- A scenario override map: an ordered list of `(field name, value)` pairs,
modelling the Python dict iterated by `scenario.items()`. -/
abbrev Scenario := List (String × FieldValue)

/-- Embedding of the override loop of `what_if_analysis`
(`app/services/ml_service.py:133-135`): apply every `(key, value)` pair of
the scenario in order; the first raising `setattr` aborts the loop with the
exception. -/
def apply_scenario (attrs : List String) (p : PropertyRecord) (scenario : Scenario) :
    Except SetAttrError PropertyRecord :=
  match scenario with
  | [] => Except.ok p
  | kv :: rest =>
    match applyOverride attrs p kv.1 kv.2 with
    | Except.error e => Except.error e
    | Except.ok q => apply_scenario attrs q rest

/-- The overrides of a scenario applied as pure field updates: the value of
`apply_scenario` on scenarios that take no error path. -/
def apply_scenario_fields (p : PropertyRecord) (scenario : Scenario) : PropertyRecord :=
  scenario.foldl (fun q kv => setField q kv.1 kv.2) p

/-- The data returned by a successful `what_if_analysis`: the base prediction
and the ordered scenario predictions. -/
structure WhatIfResult where
  base_prediction : ℚ
  scenario_predictions : List ℚ
deriving DecidableEq, Repr

/-- The scenario loop of `what_if_analysis`
(`app/services/ml_service.py:126-139`): for each scenario in order take a
deep copy of the base property (`request.base_property.copy(deep=True)`,
line 130), apply the scenario's overrides to the copy, and collect the
copy's prediction; an override that raises aborts the whole analysis with
the exception. -/
def scenario_loop (attrs : List String) (predict : PropertyRecord → ℚ)
    (base_property : PropertyRecord) (scenarios : List Scenario) :
    Except SetAttrError (List ℚ) :=
  match scenarios with
  | [] => Except.ok []
  | scenario :: rest =>
    match apply_scenario attrs base_property scenario with
    | Except.error e => Except.error e
    | Except.ok scenario_property =>
      match scenario_loop attrs predict base_property rest with
      | Except.error e => Except.error e
      | Except.ok preds => Except.ok (predict scenario_property :: preds)

/-- Embedding of `MLServices.what_if_analysis`
(`app/services/ml_service.py:114-139`): compute the base prediction from the
base property, then run the scenario loop.  The first component of the
result is the caller's `base_property` object after the call — overrides
touch only the per-iteration deep copies, so it is returned as it was even
when a scenario raises.  The prediction pipeline itself is passed as the
function `predict`. -/
def what_if_analysis (attrs : List String) (predict : PropertyRecord → ℚ)
    (base_property : PropertyRecord) (scenarios : List Scenario) :
    PropertyRecord × Except SetAttrError WhatIfResult :=
  let base_prediction := predict base_property
  (base_property,
    match scenario_loop attrs predict base_property scenarios with
    | Except.error e => Except.error e
    | Except.ok preds =>
      Except.ok { base_prediction := base_prediction,
                  scenario_predictions := preds })

/-- A concrete validated property record used by witnesses. -/
def demoProperty : PropertyRecord :=
  { area_sqft := FieldValue.num 2500, bedrooms := FieldValue.num 4,
    bathrooms := FieldValue.num 3, age_years := FieldValue.num 15,
    property_type := FieldValue.str "single_family",
    latitude := FieldValue.optNum none, longitude := FieldValue.optNum none,
    zip_code := FieldValue.optStr none,
    amenities_score := FieldValue.optNum (some 8),
    distance_to_center := FieldValue.optNum (some 5),
    school_rating := FieldValue.optNum (some 9),
    crime_index := FieldValue.optNum (some 2),
    market_trend := FieldValue.optNum (some 1),
    environmental_score := FieldValue.optNum (some 7) }

/-- A concrete prediction function used by witnesses: reads the raw
`area_sqft` value. -/
def demoPredict : PropertyRecord → ℚ :=
  fun p => match p.area_sqft with | FieldValue.num x => x | _ => 0



/-! ## Feature pipeline state (`FeatureEngineeringPipeline`,
`ml/pipelines/feature_engineering.py`) -/

/-- The state of the `ColumnTransformer` held in `self.preprocessor`: built
but not yet fitted, or fitted with learned parameters of type `F`.  The
sklearn internals are external to the repository, so the fitted parameters
are abstract. -/
inductive PreprocessorState (F : Type) where
  | unfitted
  | fitted (f : F)

/-- Embedding of a `FeatureEngineeringPipeline` instance
(`feature_engineering.py:15-18`): `self.preprocessor` (`None` only before
`_build_pipeline` assigns the transformer) and `self.feature_names`. -/
structure FeaturePipeline (F : Type) where
  preprocessor : Option (PreprocessorState F)
  feature_names : Option (List String)

/-- Embedding of `FeatureEngineeringPipeline.__init__`
(`feature_engineering.py:15-18`): sets `preprocessor = None`, then
`_build_pipeline()` immediately replaces it with the built — still unfitted —
`ColumnTransformer` (lines 20-45). -/
def FeaturePipeline.new (F : Type) : FeaturePipeline F :=
  { preprocessor := some PreprocessorState.unfitted, feature_names := none }

/-- The errors `transform` can raise before returning any data:
the explicit `ValueError("Pipeline not fitted. Call fit_transform first.")`
guard (`feature_engineering.py:69-70`, reachable only if `preprocessor` were
`None`), and sklearn's `NotFittedError` raised by
`self.preprocessor.transform(df)` when the `ColumnTransformer` was built but
never fitted. -/
inductive TransformError where
  | pipelineNotFittedValueError
  | sklearnNotFittedError
deriving DecidableEq, Repr

/-- Embedding of `FeatureEngineeringPipeline.transform`
(`feature_engineering.py:66-79`): the `is None` guard, then the underlying
transformer, which itself raises when unfitted and otherwise applies the
fitted parameters `f` to the input via `applyFit`. -/
def FeaturePipeline.transform {F Data Output : Type}
    (applyFit : F → Data → Output) (p : FeaturePipeline F) (df : Data) :
    Except TransformError Output :=
  match p.preprocessor with
  | none => Except.error TransformError.pipelineNotFittedValueError
  | some PreprocessorState.unfitted => Except.error TransformError.sklearnNotFittedError
  | some (PreprocessorState.fitted f) => Except.ok (applyFit f df)

/-- Embedding of `FeatureEngineeringPipeline.fit_transform`
(`feature_engineering.py:47-64`): fit the preprocessor on the data
(`fitOn df`), store the fitted state and the feature names, and return the
transformed data. -/
def FeaturePipeline.fit_transform {F Data Output : Type}
    (fitOn : Data → F) (applyFit : F → Data → Output) (namesOf : F → List String)
    (p : FeaturePipeline F) (df : Data) : FeaturePipeline F × Output :=
  let f := fitOn df
  ({ preprocessor := some (PreprocessorState.fitted f),
     feature_names := some (namesOf f) },
   applyFit f df)

/-! ## Synthetic data generation
(`generate_synthetic_data`, `feature_engineering.py:103-157`) -/

/-- `np.clip(x, lo, hi) = min(max(x, lo), hi)`. -/
def npClip (x lo hi : ℚ) : ℚ := min (max x lo) hi

/-- One generated property row with its derived price
(`feature_engineering.py:109-154`). -/
structure SynthRow where
  area_sqft : ℚ
  bedrooms : ℚ
  bathrooms : ℚ
  age_years : ℚ
  property_type : String
  amenities_score : ℚ
  distance_to_center : ℚ
  school_rating : ℚ
  crime_index : ℚ
  market_trend : ℚ
  environmental_score : ℚ
  price : ℚ
deriving DecidableEq, Repr

/-- The values produced by the twelve `np.random.*` calls of
`generate_synthetic_data`, one stream per call site (row index → drawn
value).  The streams stand for numpy's seeded generator, an external
library: after `np.random.seed(s)` every subsequent draw is a pure function
of `s`, which is exactly what a `NumpyDraws` value chosen per seed models.
The theorems quantify over arbitrary streams, so no distributional property
is assumed. -/
structure NumpyDraws where
  area : ℕ → ℚ
  bedrooms : ℕ → ℚ
  bathrooms : ℕ → ℚ
  age : ℕ → ℚ
  property_type : ℕ → String
  amenities : ℕ → ℚ
  distance : ℕ → ℚ
  school : ℕ → ℚ
  crime : ℕ → ℚ
  market : ℕ → ℚ
  environmental : ℕ → ℚ
  noise : ℕ → ℚ

/-- Row `i` of the generated frame: the raw draws, the `np.clip` constraints
(`feature_engineering.py:131-134`), the linear price formula with noise
(lines 137-152), and the final price clip to `[50000, 2000000]` (line 154). -/
def synthRow (d : NumpyDraws) (i : ℕ) : SynthRow :=
  let area_sqft := npClip (d.area i) 500 10000
  let bedrooms := d.bedrooms i
  let bathrooms := d.bathrooms i
  let age_years := npClip (d.age i) 0 150
  let property_type := d.property_type i
  let amenities_score := d.amenities i
  let distance_to_center := d.distance i
  let school_rating := d.school i
  let crime_index := npClip (d.crime i) 0 20
  let market_trend := npClip (d.market i) (1/2) 2
  let environmental_score := d.environmental i
  let price :=
    200000 + area_sqft * 100 + bedrooms * 15000 + bathrooms * 12000 +
    (10 - age_years / 10) * 2000 +
    (if property_type = "single_family" then 50000 else 0) +
    amenities_score * 8000 + (10 - distance_to_center) * 3000 +
    school_rating * 12000 - crime_index * 2000 +
    (market_trend - 1) * 100000 + environmental_score * 5000 + d.noise i
  { area_sqft := area_sqft, bedrooms := bedrooms, bathrooms := bathrooms,
    age_years := age_years, property_type := property_type,
    amenities_score := amenities_score,
    distance_to_center := distance_to_center, school_rating := school_rating,
    crime_index := crime_index, market_trend := market_trend,
    environmental_score := environmental_score,
    price := npClip price 50000 2000000 }

/-- Embedding of `generate_synthetic_data`
(`feature_engineering.py:103-157`): `np.random.seed(42)` runs first, so the
draw streams are those of seed 42 whatever the incoming global RNG state
`rng_state` was; then `n_samples` rows are built. -/
def generate_synthetic_data (draws_of_seed : ℕ → NumpyDraws) (rng_state : ℕ)
    (n_samples : ℕ) : List SynthRow :=
  let d := draws_of_seed 42
  (List.range n_samples).map (fun i => synthRow d i)

/-! ## Confidence score (`ModelExplainer.calculate_confidence_score`,
`ml/utils/model_evaluator.py:249-274`) -/

/-- A Python/numpy float value: a finite value (an exact real, since
`np.std` introduces a square root), a signed infinity, or NaN. -/
inductive PyFloat where
  | nan
  | inf
  | ninf
  | fin (x : ℝ)

/-- `np.mean` of a list of finite floats. -/
noncomputable def npMean (l : List ℝ) : ℝ := l.sum / l.length

/-- The population variance underlying `np.std`. -/
noncomputable def npVariance (l : List ℝ) : ℝ :=
  ((l.map (fun x => (x - npMean l) ^ 2)).sum) / l.length

/-- `np.std`: the square root of the population variance. -/
noncomputable def npStd (l : List ℝ) : ℝ := Real.sqrt (npVariance l)

/-- IEEE division of two finite floats: `0/0` is NaN, `x/0` for `x ≠ 0` is a
signed infinity (numpy warns but does not raise), otherwise the exact
quotient. -/
noncomputable def pyDivFin (a b : ℝ) : PyFloat :=
  if b = 0 then
    (if a = 0 then PyFloat.nan
     else if 0 < a then PyFloat.inf
     else PyFloat.ninf)
  else PyFloat.fin (a / b)

/-- Python's `min(x, 1.0)`: `min` keeps its first argument unless the second
compares strictly below it, so `min(nan, 1.0)` is `nan` (no comparison with
NaN is true) and `min(inf, 1.0)` is `1.0`. -/
noncomputable def pyMinOne (x : PyFloat) : PyFloat :=
  match x with
  | PyFloat.nan => PyFloat.nan
  | PyFloat.inf => PyFloat.fin 1
  | PyFloat.ninf => PyFloat.ninf
  | PyFloat.fin a => PyFloat.fin (min a 1)

/-- `1.0 - x` on floats: NaN propagates, infinities flip sign. -/
noncomputable def pyOneSub (x : PyFloat) : PyFloat :=
  match x with
  | PyFloat.nan => PyFloat.nan
  | PyFloat.inf => PyFloat.ninf
  | PyFloat.ninf => PyFloat.inf
  | PyFloat.fin a => PyFloat.fin (1 - a)

/-- `(x + adj) / 2` on floats with `adj` finite. -/
noncomputable def pyBlend (x : PyFloat) (adj : ℝ) : PyFloat :=
  match x with
  | PyFloat.nan => PyFloat.nan
  | PyFloat.inf => PyFloat.inf
  | PyFloat.ninf => PyFloat.ninf
  | PyFloat.fin a => PyFloat.fin ((a + adj) / 2)

/-- `np.clip(x, 0.0, 1.0) = minimum(maximum(x, 0), 1)`: NaN propagates
through `np.clip`, infinities clamp to the bounds. -/
noncomputable def npClip01 (x : PyFloat) : PyFloat :=
  match x with
  | PyFloat.nan => PyFloat.nan
  | PyFloat.inf => PyFloat.fin 1
  | PyFloat.ninf => PyFloat.fin 0
  | PyFloat.fin a => PyFloat.fin (min (max a 0) 1)

/-- Embedding of `ModelExplainer.calculate_confidence_score`
(`ml/utils/model_evaluator.py:249-274`): with a nonempty importance list,
`base_confidence = 1.0 - min(np.std(values) / np.mean(values), 1.0)`; with an
empty list, `base_confidence = 0.5`.  When a metrics dict with an `r2` entry
is supplied, `confidence = (base_confidence + min(r2, 1.0)) / 2`, otherwise
`confidence = base_confidence`.  The result is `np.clip(confidence, 0, 1)`.
No step of this computation raises, so the `except` fallback (return `0.5`)
is not taken. -/
noncomputable def calculate_confidence_score (importance_values : List ℝ)
    (metrics_r2 : Option ℝ) : PyFloat :=
  let base_confidence : PyFloat :=
    match importance_values with
    | [] => PyFloat.fin (1/2)
    | _ =>
      pyOneSub (pyMinOne
        (pyDivFin (npStd importance_values) (npMean importance_values)))
  let confidence : PyFloat :=
    match metrics_r2 with
    | some r2 => pyBlend base_confidence (min r2 1)
    | none => base_confidence
  npClip01 confidence

/-- Embedding of the confidence computation of `MLServices.predict_price`
(`app/services/ml_service.py:74-75`):
`explainer.calculate_confidence_score(feature_importance)` is called with the
feature importances only — no `prediction_metrics` argument — even though the
active model's measured `test_r2` is available in
`model_trainer.model_scores`.  That available value is the second argument
here, and the call does not use it. -/
noncomputable def predict_price_confidence (feature_importance : List ℝ)
    (available_test_r2 : ℝ) : PyFloat :=
  calculate_confidence_score feature_importance none

/-- Rendering, in the spec's vocabulary, of the confidence value that
`predict_price` actually returns: no R² blend ever happens; for a nonempty
importance list the result is `clip(1 - min(std/mean, 1), 0, 1)` when the
mean is nonzero, `0` when the mean is zero but the dispersion is not (the
ratio overflows to `+inf` and `min` caps it at 1), and NaN when mean and
dispersion are both zero (`0/0`); for an empty list it is `0.5`. -/
noncomputable def specNoBlendConfidence (fi : List ℝ) : PyFloat :=
  match fi with
  | [] => PyFloat.fin (1/2)
  | _ =>
    if npVariance fi = 0 ∧ npMean fi = 0 then PyFloat.nan
    else if npMean fi = 0 then PyFloat.fin 0
    else PyFloat.fin (min (max (1 - min (npStd fi / npMean fi) 1) 0) 1)

/-! ## Theorems for claims C7, C3, C4 -/

/-- Claim C7 (confirmed): for every confidence score `c`, the label is
`"Low"` iff `c < 0.4`, `"Medium"` iff `0.4 ≤ c ≤ 0.7`, and `"High"` iff
`c > 0.7`; in particular `c = 0.4` and `c = 0.7` both map to `"Medium"`. -/
theorem confidence_label_boundaries (c : ℚ) :
    (get_confidence_label c = "Low" ↔ c < 2/5) ∧
    (get_confidence_label c = "Medium" ↔ 2/5 ≤ c ∧ c ≤ 7/10) ∧
    (get_confidence_label c = "High" ↔ 7/10 < c) ∧
    get_confidence_label (2/5) = "Medium" ∧
    get_confidence_label (7/10) = "Medium" := by
  refine ⟨?_, ?_, ?_, by norm_num [get_confidence_label], by norm_num [get_confidence_label]⟩
  · by_cases h1 : c < 2/5
    · simp only [get_confidence_label, if_pos h1]
      exact iff_of_true trivial h1
    · by_cases h2 : c ≤ 7/10
      · simp only [get_confidence_label, if_neg h1, if_pos h2]
        exact iff_of_false (by decide) h1
      · simp only [get_confidence_label, if_neg h1, if_neg h2]
        exact iff_of_false (by decide) h1
  · by_cases h1 : c < 2/5
    · simp only [get_confidence_label, if_pos h1]
      exact iff_of_false (by decide) (fun h => absurd h1 (not_lt.mpr h.1))
    · by_cases h2 : c ≤ 7/10
      · simp only [get_confidence_label, if_neg h1, if_pos h2]
        exact iff_of_true trivial ⟨le_of_not_lt h1, h2⟩
      · simp only [get_confidence_label, if_neg h1, if_neg h2]
        exact iff_of_false (by decide) (fun h => absurd h.2 h2)
  · by_cases h1 : c < 2/5
    · simp only [get_confidence_label, if_pos h1]
      exact iff_of_false (by decide) (fun h => absurd h1 (by linarith))
    · by_cases h2 : c ≤ 7/10
      · simp only [get_confidence_label, if_neg h1, if_pos h2]
        exact iff_of_false (by decide) (fun h => absurd h2 (not_le.mpr h))
      · simp only [get_confidence_label, if_neg h1, if_neg h2]
        exact iff_of_true trivial (lt_of_not_le h2)

/-- Claim C3 (counterexample): at a zero point estimate the computed bounds are
equal, the ±5% widening is applied but still produces the degenerate interval
`[0, 0]`, so the lower bound is not strictly below the upper bound. -/
theorem price_range_zero_prediction_degenerate :
    price_range 0 1 = (0, 0) ∧ ¬ (price_range 0 1).1 < (price_range 0 1).2 := by
  norm_num [price_range, Prod.ext_iff]

/-- Claim C3 (amended, proved): for every strictly positive point estimate and
every confidence score in `[0, 1]`, the price-range lower bound is at most the
point estimate, the point estimate is at most the upper bound, the lower bound
is strictly below the upper bound, and whenever the two computed bounds are
numerically equal the returned range is the fixed ±5% band around the point
estimate. -/
theorem price_range_bounds (prediction confidence_score : ℚ)
    (hp : 0 < prediction) (hc0 : 0 ≤ confidence_score) (hc1 : confidence_score ≤ 1) :
    (price_range prediction confidence_score).1 ≤ prediction ∧
    prediction ≤ (price_range prediction confidence_score).2 ∧
    (price_range prediction confidence_score).1 <
      (price_range prediction confidence_score).2 ∧
    (prediction - prediction * ((1 - confidence_score) * (1/10)) =
        prediction + prediction * ((1 - confidence_score) * (1/10)) →
      price_range prediction confidence_score =
        (prediction * (95/100), prediction * (105/100))) := by
  have hu : 0 ≤ (1 - confidence_score) * (1/10) := by nlinarith
  have hpu : 0 ≤ prediction * ((1 - confidence_score) * (1/10)) :=
    mul_nonneg hp.le hu
  simp only [price_range]
  by_cases heq : prediction - prediction * ((1 - confidence_score) * (1/10)) =
      prediction + prediction * ((1 - confidence_score) * (1/10))
  · simp only [if_pos heq]
    refine ⟨by nlinarith, by nlinarith, by nlinarith, fun _ => trivial⟩
  · simp only [if_neg heq]
    have hne : prediction * ((1 - confidence_score) * (1/10)) ≠ 0 := by
      intro h
      exact heq (by linarith)
    have hpos : 0 < prediction * ((1 - confidence_score) * (1/10)) :=
      lt_of_le_of_ne hpu (Ne.symm hne)
    exact ⟨by linarith, by linarith, by linarith, fun h => absurd h heq⟩

/-- Claim C3 witness: the amended bounds theorem applied at a concrete
prediction of 100 with confidence exactly 1; the bounds are widened to the
±5% band `(95, 105)`. -/
theorem price_range_bounds_witness :
    (0:ℚ) < 100 ∧ (price_range 100 1).1 ≤ 100 ∧ 100 ≤ (price_range 100 1).2 ∧
    (price_range 100 1).1 < (price_range 100 1).2 :=
  ⟨by norm_num,
   (price_range_bounds 100 1 (by norm_num) (by norm_num) (by norm_num)).1,
   (price_range_bounds 100 1 (by norm_num) (by norm_num) (by norm_num)).2.1,
   (price_range_bounds 100 1 (by norm_num) (by norm_num) (by norm_num)).2.2.1⟩

/-- Claim C4 (counterexample): with a zero base price and one scenario, the
comparison loop of `what_if_analysis` raises `ZeroDivisionError`; the division
by a zero base price is not guarded in the source. -/
theorem what_if_zero_base_raises :
    comparison_analysis 0 [100] = Except.error AnalysisError.zeroDivisionError := by
  simp [comparison_analysis, scenario_comparison]

/-- Claim C4 (amended, proved): the per-scenario percentage delta equals
`(scenario_price - base_price) / base_price * 100` whenever the base price is
nonzero; when the base price is zero and at least one scenario exists, the
comparison is not guarded and fails with `ZeroDivisionError`. -/
theorem what_if_percentage_formula (base_price : ℚ) (scenario_prices : List ℚ) :
    (base_price ≠ 0 →
      comparison_analysis base_price scenario_prices =
        Except.ok (scenario_prices.map
          (fun p => (p - base_price, (p - base_price) / base_price * 100)))) ∧
    (base_price = 0 → scenario_prices ≠ [] →
      comparison_analysis base_price scenario_prices =
        Except.error AnalysisError.zeroDivisionError) := by
  constructor
  · intro hbase
    induction scenario_prices with
    | nil => rfl
    | cons p rest ih =>
      simp only [comparison_analysis, scenario_comparison, if_neg hbase, ih, List.map_cons]
  · intro hbase hne
    cases scenario_prices with
    | nil => exact absurd rfl hne
    | cons p rest =>
      simp only [comparison_analysis, scenario_comparison, if_pos hbase]

/-- Claim C4 witness: the amended formula theorem applied at base price 200
with a single scenario priced 300: the delta is 100 and the percentage is 50. -/
theorem what_if_percentage_formula_witness :
    comparison_analysis 200 [300] = Except.ok [(100, 50)] := by
  have h := (what_if_percentage_formula 200 [300]).1 (by norm_num)
  norm_num at h
  exact h

/-! ## Lemmas and theorems for claim C1 (model selection) -/

lemma foldl_selectQualStep_filter (l : List Candidate) (acc : Option (String × ℚ)) :
    l.foldl selectQualStep acc =
      (l.filter (fun p => qualifies p.2)).foldl qualifyingUpdate acc := by
  induction l generalizing acc with
  | nil => rfl
  | cons p rest ih =>
    by_cases h : qualifies p.2
    · rw [List.foldl_cons, show selectQualStep acc p = qualifyingUpdate acc p from by
        simp [selectQualStep, h], ih, List.filter_cons_of_pos (by simpa using h),
        List.foldl_cons]
    · rw [List.foldl_cons, show selectQualStep acc p = acc from by
        simp [selectQualStep, h], ih, List.filter_cons_of_neg (by simpa using h)]

lemma foldl_qualifyingUpdate_lockstep (xs : List Candidate) (b : Candidate) :
    xs.foldl qualifyingUpdate (some (b.1, b.2.test_rmse)) =
      some ((xs.foldl rmseUpdate b).1, (xs.foldl rmseUpdate b).2.test_rmse) := by
  induction xs generalizing b with
  | nil => rfl
  | cons p rest ih =>
    simp only [List.foldl_cons]
    by_cases h : p.2.test_rmse < b.2.test_rmse
    · rw [show qualifyingUpdate (some (b.1, b.2.test_rmse)) p = some (p.1, p.2.test_rmse)
          from by simp [qualifyingUpdate, h],
        show rmseUpdate b p = p from by simp [rmseUpdate, h]]
      exact ih p
    · rw [show qualifyingUpdate (some (b.1, b.2.test_rmse)) p = some (b.1, b.2.test_rmse)
          from by simp [qualifyingUpdate, h],
        show rmseUpdate b p = b from by simp [rmseUpdate, h]]
      exact ih b

lemma selectByRmse_eq_minByRmse (l : List Candidate) :
    selectByRmse l =
      (minByRmse (l.filter (fun p => qualifies p.2))).map
        (fun q => (q.1, q.2.test_rmse)) := by
  rw [selectByRmse, foldl_selectQualStep_filter]
  cases hf : l.filter (fun p => qualifies p.2) with
  | nil => rfl
  | cons x xs =>
    rw [List.foldl_cons, show qualifyingUpdate none x = some (x.1, x.2.test_rmse) from rfl,
      foldl_qualifyingUpdate_lockstep, minByRmse]
    rfl

lemma foldl_r2_lockstep (xs : List Candidate) (b : Candidate) :
    xs.foldl selectR2Step (some b.1, b.2.test_r2) =
      (some (xs.foldl r2Update b).1, (xs.foldl r2Update b).2.test_r2) := by
  induction xs generalizing b with
  | nil => rfl
  | cons p rest ih =>
    simp only [List.foldl_cons]
    by_cases h : b.2.test_r2 < p.2.test_r2
    · rw [show selectR2Step (some b.1, b.2.test_r2) p = (some p.1, p.2.test_r2)
          from by simp [selectR2Step, h],
        show r2Update b p = p from by simp [r2Update, h]]
      exact ih p
    · rw [show selectR2Step (some b.1, b.2.test_r2) p = (some b.1, b.2.test_r2)
          from by simp [selectR2Step, h],
        show r2Update b p = b from by simp [r2Update, h]]
      exact ih b

lemma foldl_r2Update_skip (xs : List Candidate) (x : Candidate)
    (hx : x.2.test_r2 ≤ -1) (hex : ∃ p ∈ xs, -1 < p.2.test_r2) :
    some (xs.foldl r2Update x) = maxByR2 xs := by
  induction xs generalizing x with
  | nil =>
    obtain ⟨p, hp, _⟩ := hex
    exact absurd hp (List.not_mem_nil p)
  | cons y ys ih =>
    by_cases hy : -1 < y.2.test_r2
    · have hxy : r2Update x y = y := by
        simp only [r2Update, if_pos (lt_of_le_of_lt hx hy)]
      rw [List.foldl_cons, hxy, maxByR2]
    · have hy' : y.2.test_r2 ≤ -1 := le_of_not_lt hy
      have hex' : ∃ p ∈ ys, -1 < p.2.test_r2 := by
        obtain ⟨p, hp, hpr⟩ := hex
        rcases List.mem_cons.mp hp with h | h
        · exact absurd (h ▸ hpr) hy
        · exact ⟨p, h, hpr⟩
      have hxy : (r2Update x y).2.test_r2 ≤ -1 := by
        unfold r2Update
        split_ifs <;> assumption
      calc some ((y :: ys).foldl r2Update x)
          = some (ys.foldl r2Update (r2Update x y)) := rfl
        _ = maxByR2 ys := ih (r2Update x y) hxy hex'
        _ = some (ys.foldl r2Update y) := (ih y hy' hex').symm
        _ = maxByR2 (y :: ys) := rfl

lemma selectByR2_eq_maxByR2 (l : List Candidate)
    (hex : ∃ p ∈ l, -1 < p.2.test_r2) :
    (selectByR2 l).1 = (maxByR2 l).map (fun p => p.1) := by
  induction l with
  | nil =>
    obtain ⟨p, hp, _⟩ := hex
    exact absurd hp (List.not_mem_nil p)
  | cons x xs ih =>
    by_cases hx : -1 < x.2.test_r2
    · rw [selectByR2, List.foldl_cons,
        show selectR2Step (none, -1) x = (some x.1, x.2.test_r2) from by
          simp [selectR2Step, hx],
        foldl_r2_lockstep]
      rfl
    · have hx' : x.2.test_r2 ≤ -1 := le_of_not_lt hx
      have hex' : ∃ p ∈ xs, -1 < p.2.test_r2 := by
        obtain ⟨p, hp, hpr⟩ := hex
        rcases List.mem_cons.mp hp with h | h
        · exact absurd (h ▸ hpr) hx
        · exact ⟨p, h, hpr⟩
      have hstep : selectR2Step (none, -1) x = (none, -1) := by
        simp [selectR2Step, hx]
      have hmax : maxByR2 (x :: xs) = maxByR2 xs := by
        show some (xs.foldl r2Update x) = maxByR2 xs
        exact foldl_r2Update_skip xs x hx' hex'
      rw [selectByR2, List.foldl_cons, hstep, hmax]
      exact ih hex'

/-- Claim C1 (amended, proved): provided at least one candidate has
`test_r2 > -1`, `_select_best_model` matches the spec's policy exactly: a
candidate qualifies iff `test_r2 ≥ 0.7` and `test_rmse ≤ 50000`; among
qualifying candidates the one with the lowest `test_rmse` is selected
(earliest-evaluated wins an exact tie); if no candidate qualifies, the
candidate with the highest `test_r2` is selected regardless of thresholds. -/
theorem select_best_model_matches_spec (l : List Candidate)
    (hex : ∃ p ∈ l, -1 < p.2.test_r2) :
    select_best_model l = specSelectBestModel l ∧
    (∀ s : ModelScores,
      qualifies s = true ↔ ((7:ℚ)/10 ≤ s.test_r2 ∧ s.test_rmse ≤ 50000)) := by
  constructor
  · rw [select_best_model, specSelectBestModel, selectByRmse_eq_minByRmse]
    cases hf : minByRmse (l.filter (fun p => qualifies p.2)) with
    | some q => rfl
    | none =>
      simp only [Option.map_none']
      exact selectByR2_eq_maxByR2 l hex
  · intro s
    simp [qualifies, Bool.and_eq_true, decide_eq_true_eq]

/-- Claim C1 (counterexample): when every candidate has `test_r2 ≤ -1` (all
below the fallback loop's sentinel `best_r2 = -1`), no candidate qualifies
and the fallback never fires, so no model is selected at all — contradicting
the claim that the candidate with the highest `test_r2` is then selected. -/
theorem select_best_model_sentinel_counterexample :
    (∀ p ∈ [(("linear_regression" : String),
        (⟨100000, -2⟩ : ModelScores))],
      ¬ ((7:ℚ)/10 ≤ p.2.test_r2 ∧ p.2.test_rmse ≤ 50000)) ∧
    maxByR2 [(("linear_regression" : String), (⟨100000, -2⟩ : ModelScores))] =
      some ("linear_regression", ⟨100000, -2⟩) ∧
    select_best_model [(("linear_regression" : String),
      (⟨100000, -2⟩ : ModelScores))] = none := by
  have hq : qualifies (⟨100000, -2⟩ : ModelScores) = false := by
    unfold qualifies
    rw [decide_eq_false (by norm_num : ¬ ((7:ℚ)/10 ≤ (-2 : ℚ)))]
    simp
  refine ⟨?_, rfl, ?_⟩
  · intro p hp
    rcases List.mem_singleton.mp hp with h
    subst h
    intro hc
    norm_num at hc
  · rw [select_best_model, selectByRmse, List.foldl_cons,
      show selectQualStep none ("linear_regression", (⟨100000, -2⟩ : ModelScores)) = none
        from by simp [selectQualStep, hq]]
    show (selectByR2 _).1 = none
    rw [selectByR2, List.foldl_cons,
      show selectR2Step (none, -1) ("linear_regression", (⟨100000, -2⟩ : ModelScores)) =
          (none, -1) from by
        simp only [selectR2Step, if_neg (by norm_num : ¬ ((-1:ℚ) < (-2:ℚ)))]]
    rfl

/-- Claim C1 witness: the amended theorem applied to a concrete score table;
`random_forest` qualifies with the lowest test RMSE and is selected by both
the code and the spec policy. -/
theorem select_best_model_matches_spec_witness :
    (∃ p ∈ [(("linear_regression" : String), (⟨60000, 65/100⟩ : ModelScores)),
            (("random_forest" : String), (⟨30000, 9/10⟩ : ModelScores)),
            (("xgboost" : String), (⟨35000, 88/100⟩ : ModelScores))],
      -1 < p.2.test_r2) ∧
    select_best_model [(("linear_regression" : String), (⟨60000, 65/100⟩ : ModelScores)),
            (("random_forest" : String), (⟨30000, 9/10⟩ : ModelScores)),
            (("xgboost" : String), (⟨35000, 88/100⟩ : ModelScores))] =
      specSelectBestModel [(("linear_regression" : String), (⟨60000, 65/100⟩ : ModelScores)),
            (("random_forest" : String), (⟨30000, 9/10⟩ : ModelScores)),
            (("xgboost" : String), (⟨35000, 88/100⟩ : ModelScores))] := by
  have hex : ∃ p ∈ [(("linear_regression" : String), (⟨60000, 65/100⟩ : ModelScores)),
            (("random_forest" : String), (⟨30000, 9/10⟩ : ModelScores)),
            (("xgboost" : String), (⟨35000, 88/100⟩ : ModelScores))],
      -1 < p.2.test_r2 := by
    refine ⟨("linear_regression", ⟨60000, 65/100⟩), by simp, by norm_num⟩
  exact ⟨hex, (select_best_model_matches_spec _ hex).1⟩

/-! ## Lemmas and theorems for claims C6 and C10 (what-if analysis) -/

lemma setField_not_field (p : PropertyRecord) (k : String) (v : FieldValue)
    (hk : k ∉ property_field_names) : setField p k v = p := by
  simp only [property_field_names, List.mem_cons, List.mem_singleton, not_or,
    List.not_mem_nil] at hk
  obtain ⟨h1, h2, h3, h4, h5, h6, h7, h8, h9, h10, h11, h12, h13, h14⟩ := hk
  simp [setField, h1, h2, h3, h4, h5, h6, h7, h8, h9, h10, h11, h12, h13, h14]

lemma applyOverride_safe_key (attrs : List String) (p : PropertyRecord)
    (k : String) (v : FieldValue)
    (h : k ∈ property_field_names ∨ k ∉ attrs) :
    applyOverride attrs p k v = Except.ok (setField p k v) := by
  by_cases hf : k ∈ property_field_names
  · simp [applyOverride, hasattrBaseModel, setattrBaseModel, hf]
  · have ha : k ∉ attrs := h.resolve_left hf
    simp [applyOverride, hasattrBaseModel, hf, ha, setField_not_field p k v hf]

lemma apply_scenario_safe (attrs : List String) (sc : Scenario) :
    ∀ p : PropertyRecord,
      (∀ kv ∈ sc, kv.1 ∈ property_field_names ∨ kv.1 ∉ attrs) →
      apply_scenario attrs p sc = Except.ok (apply_scenario_fields p sc) := by
  induction sc with
  | nil => intro p _; rfl
  | cons kv rest ih =>
    intro p hs
    rw [apply_scenario, applyOverride_safe_key attrs p kv.1 kv.2
      (hs kv (List.mem_cons_self kv rest))]
    exact ih (setField p kv.1 kv.2) (fun kv2 h2 => hs kv2 (List.mem_cons_of_mem kv h2))

lemma scenario_loop_safe (attrs : List String) (predict : PropertyRecord → ℚ)
    (base : PropertyRecord) (scenarios : List Scenario)
    (hs : ∀ sc ∈ scenarios, ∀ kv ∈ sc, kv.1 ∈ property_field_names ∨ kv.1 ∉ attrs) :
    scenario_loop attrs predict base scenarios =
      Except.ok (scenarios.map (fun sc => predict (apply_scenario_fields base sc))) := by
  induction scenarios with
  | nil => rfl
  | cons sc rest ih =>
    rw [scenario_loop, apply_scenario_safe attrs sc base
      (hs sc (List.mem_cons_self sc rest)),
      ih (fun sc2 h2 => hs sc2 (List.mem_cons_of_mem sc h2)), List.map_cons]

lemma apply_scenario_skips_unknown_key (attrs : List String)
    (s1 s2 : Scenario) (k : String) (v : FieldValue)
    (hk1 : k ∉ property_field_names) (hk2 : k ∉ attrs) :
    ∀ base : PropertyRecord,
      apply_scenario attrs base (s1 ++ (k, v) :: s2) =
        apply_scenario attrs base (s1 ++ s2) := by
  have hskip : ∀ q : PropertyRecord, applyOverride attrs q k v = Except.ok q := by
    intro q
    have : hasattrBaseModel attrs k = false := by
      simp [hasattrBaseModel, hk1, hk2]
    simp [applyOverride, this]
  induction s1 with
  | nil =>
    intro base
    rw [List.nil_append, List.nil_append, apply_scenario, hskip base]
  | cons kv rest ih =>
    intro base
    rw [List.cons_append, List.cons_append, apply_scenario, apply_scenario]
    cases happly : applyOverride attrs base kv.1 kv.2 with
    | error e => rfl
    | ok q => exact ih q

/-- Claim C6 (amended, proved): provided every override key of every scenario
either names a property field or is not an attribute of the model at all,
`what_if_analysis` succeeds and returns one scenario prediction per input
scenario, in input order (the i-th prediction is the prediction of the base
property with the i-th scenario's field overrides applied); and an override
key that is neither a field nor any other model attribute is silently
skipped — dropping it from a scenario changes nothing. -/
theorem what_if_length_order_unknown_key (attrs : List String)
    (predict : PropertyRecord → ℚ) (base : PropertyRecord)
    (scenarios : List Scenario) (s1 s2 : Scenario) (k : String) (v : FieldValue)
    (hsafe : ∀ sc ∈ scenarios, ∀ kv ∈ sc, kv.1 ∈ property_field_names ∨ kv.1 ∉ attrs)
    (hk1 : k ∉ property_field_names) (hk2 : k ∉ attrs) :
    (what_if_analysis attrs predict base scenarios).2 =
      Except.ok { base_prediction := predict base,
                  scenario_predictions :=
                    scenarios.map (fun sc => predict (apply_scenario_fields base sc)) } ∧
    (scenarios.map (fun sc => predict (apply_scenario_fields base sc))).length =
      scenarios.length ∧
    apply_scenario attrs base (s1 ++ (k, v) :: s2) =
      apply_scenario attrs base (s1 ++ s2) := by
  refine ⟨?_, List.length_map scenarios _,
    apply_scenario_skips_unknown_key attrs s1 s2 k v hk1 hk2 base⟩
  simp only [what_if_analysis,
    scenario_loop_safe attrs predict base scenarios hsafe]

/-- Claim C6 (counterexample): `"dict"` is not a property field, yet a
scenario overriding it is not silently ignored: `hasattr` is true for the
`BaseModel` method `dict`, and pydantic's `setattr` then raises
`ValueError("object has no field")`, aborting the analysis — so an override
whose field name matches no property field can crash `what_if_analysis`
instead of being a no-op. -/
theorem what_if_attribute_key_raises :
    ("dict" ∉ property_field_names) ∧
    (what_if_analysis ["dict", "copy", "json", "Config"] demoPredict
        demoProperty [[("dict", FieldValue.num 1)]]).2 =
      Except.error (SetAttrError.objectHasNoField "dict") :=
  ⟨by decide, rfl⟩

/-- Claim C6 witness: the amended theorem applied to the concrete demo
record, a safe scenario, and the unknown non-attribute key
`"unknown_field"` inserted between two field overrides. -/
theorem what_if_length_order_unknown_key_witness :
    (what_if_analysis ["dict", "copy", "json", "Config"] demoPredict demoProperty
        [[("bedrooms", FieldValue.num 5)]]).2 =
      Except.ok { base_prediction := demoPredict demoProperty,
                  scenario_predictions :=
                    [[("bedrooms", FieldValue.num 5)]].map
                      (fun sc => demoPredict (apply_scenario_fields demoProperty sc)) } ∧
    ([[("bedrooms", FieldValue.num 5)]].map
        (fun sc => demoPredict (apply_scenario_fields demoProperty sc))).length = 1 ∧
    apply_scenario ["dict", "copy", "json", "Config"] demoProperty
        ([("bedrooms", FieldValue.num 5)] ++
          ("unknown_field", FieldValue.num 1) :: [("area_sqft", FieldValue.num 3000)]) =
      apply_scenario ["dict", "copy", "json", "Config"] demoProperty
        ([("bedrooms", FieldValue.num 5)] ++ [("area_sqft", FieldValue.num 3000)]) :=
  what_if_length_order_unknown_key ["dict", "copy", "json", "Config"]
    demoPredict demoProperty [[("bedrooms", FieldValue.num 5)]]
    [("bedrooms", FieldValue.num 5)] [("area_sqft", FieldValue.num 3000)]
    "unknown_field" (FieldValue.num 1) (by decide) (by decide) (by decide)

lemma what_if_ok_base_prediction (attrs : List String)
    (predict : PropertyRecord → ℚ) (base : PropertyRecord)
    (scenarios : List Scenario) (r : WhatIfResult)
    (h : (what_if_analysis attrs predict base scenarios).2 = Except.ok r) :
    r.base_prediction = predict base := by
  cases hl : scenario_loop attrs predict base scenarios with
  | error e => simp [what_if_analysis, hl] at h
  | ok preds =>
    simp only [what_if_analysis, hl, Except.ok.injEq] at h
    rw [← h]

lemma what_if_ok_loop (attrs : List String) (predict : PropertyRecord → ℚ)
    (base : PropertyRecord) (scenarios : List Scenario) (r : WhatIfResult)
    (h : (what_if_analysis attrs predict base scenarios).2 = Except.ok r) :
    ∃ preds, scenario_loop attrs predict base scenarios = Except.ok preds ∧
      r.scenario_predictions = preds := by
  cases hl : scenario_loop attrs predict base scenarios with
  | error e => simp [what_if_analysis, hl] at h
  | ok preds =>
    refine ⟨preds, rfl, ?_⟩
    simp only [what_if_analysis, hl, Except.ok.injEq] at h
    rw [← h]

lemma scenario_loop_append_index (attrs : List String)
    (predict : PropertyRecord → ℚ) (base : PropertyRecord)
    (sc : Scenario) (s2 : List Scenario) :
    ∀ (s1 : List Scenario) (preds : List ℚ),
      scenario_loop attrs predict base (s1 ++ sc :: s2) = Except.ok preds →
      ∀ q : PropertyRecord, apply_scenario attrs base sc = Except.ok q →
      preds[s1.length]? = some (predict q) := by
  intro s1
  induction s1 with
  | nil =>
    intro preds hp q hq
    rw [List.nil_append] at hp
    cases hrest : scenario_loop attrs predict base s2 with
    | error e =>
      simp only [scenario_loop, hq, hrest] at hp
      exact Except.noConfusion hp
    | ok preds2 =>
      simp only [scenario_loop, hq, hrest, Except.ok.injEq] at hp
      subst hp
      simp
  | cons sc1 rest ih =>
    intro preds hp q hq
    rw [List.cons_append] at hp
    cases ha : apply_scenario attrs base sc1 with
    | error e =>
      simp only [scenario_loop, ha] at hp
      exact Except.noConfusion hp
    | ok p1 =>
      cases hrest : scenario_loop attrs predict base (rest ++ sc :: s2) with
      | error e =>
        simp only [scenario_loop, ha, hrest] at hp
        exact Except.noConfusion hp
      | ok preds2 =>
        simp only [scenario_loop, ha, hrest, Except.ok.injEq] at hp
        subst hp
        simp only [List.length_cons, List.getElem?_cons_succ]
        exact ih preds2 hrest q hq

/-- Claim C10 (confirmed): scenario overrides are applied to a per-iteration
deep copy of the base property, so the caller's `base_property` is returned
unchanged by every analysis — including analyses aborted by a raising
override; whenever two analyses of the same base succeed, they report the
same base prediction regardless of which scenarios were supplied; and in a
successful analysis the prediction at a scenario's position is computed from
the original base property and that scenario alone, not from any previously
modified record. -/
theorem what_if_base_property_not_mutated (attrs : List String)
    (predict : PropertyRecord → ℚ) (base : PropertyRecord)
    (scenarios s1 s2 : List Scenario) (sc : Scenario)
    (r1 r2 r3 : WhatIfResult) (q : PropertyRecord)
    (h1 : (what_if_analysis attrs predict base s1).2 = Except.ok r1)
    (h2 : (what_if_analysis attrs predict base s2).2 = Except.ok r2)
    (h3 : (what_if_analysis attrs predict base (s1 ++ sc :: s2)).2 = Except.ok r3)
    (hq : apply_scenario attrs base sc = Except.ok q) :
    (what_if_analysis attrs predict base scenarios).1 = base ∧
    r1.base_prediction = r2.base_prediction ∧
    r3.scenario_predictions[s1.length]? = some (predict q) := by
  refine ⟨rfl, ?_, ?_⟩
  · rw [what_if_ok_base_prediction attrs predict base s1 r1 h1,
      what_if_ok_base_prediction attrs predict base s2 r2 h2]
  · obtain ⟨preds, hl, hr⟩ := what_if_ok_loop attrs predict base (s1 ++ sc :: s2) r3 h3
    rw [hr]
    exact scenario_loop_append_index attrs predict base sc s2 s1 preds hl q hq

/-- Claim C10 witness: the theorem applied with a raising scenario list for
the mutation conjunct (attrs containing `"dict"`) and concrete successful
analyses for the others; all four success hypotheses are discharged by
evaluation. -/
theorem what_if_base_property_not_mutated_witness :
    (what_if_analysis ["dict"] demoPredict
        demoProperty [[("dict", FieldValue.num 1)]]).1 = demoProperty ∧
    (WhatIfResult.mk 2500 []).base_prediction =
      (WhatIfResult.mk 2500 [3000]).base_prediction ∧
    (WhatIfResult.mk 2500 [2500, 3000]).scenario_predictions[(0:ℕ)]? =
      some ((2500 : ℚ)) :=
  what_if_base_property_not_mutated ["dict"] demoPredict
    demoProperty [[("dict", FieldValue.num 1)]]
    [] [[("area_sqft", FieldValue.num 3000)]] [("bedrooms", FieldValue.num 5)]
    (WhatIfResult.mk 2500 []) (WhatIfResult.mk 2500 [3000])
    (WhatIfResult.mk 2500 [2500, 3000])
    { demoProperty with bedrooms := FieldValue.num 5 }
    rfl rfl rfl rfl

/-! ## Theorem for claim C8 (transform before fit) -/

/-- Claim C8 (confirmed): for every input, calling `transform` on a freshly
constructed pipeline — before `fit_transform` has ever been called — fails
with the not-fitted precondition error (the underlying transformer's
`NotFittedError`; the pipeline's own `ValueError` guard is unreachable
because `_build_pipeline` always assigns a transformer object) and never
returns data; after a `fit_transform`, `transform` succeeds. -/
theorem transform_before_fit_fails (F Data Output : Type)
    (fitOn : Data → F) (applyFit : F → Data → Output) (namesOf : F → List String)
    (df df' : Data) :
    FeaturePipeline.transform applyFit (FeaturePipeline.new F) df =
      Except.error TransformError.sklearnNotFittedError ∧
    (∀ out : Output,
      FeaturePipeline.transform applyFit (FeaturePipeline.new F) df ≠
        Except.ok out) ∧
    FeaturePipeline.transform applyFit
        ((FeaturePipeline.new F).fit_transform fitOn applyFit namesOf df').1 df =
      Except.ok (applyFit (fitOn df') df) := by
  refine ⟨rfl, ?_, rfl⟩
  intro out h
  simp [FeaturePipeline.transform, FeaturePipeline.new] at h

/-! ## Theorem for claim C9 (synthetic data generation) -/

lemma npClip_bounds (x lo hi : ℚ) (h : lo ≤ hi) :
    lo ≤ npClip x lo hi ∧ npClip x lo hi ≤ hi :=
  ⟨le_min (le_max_right x lo) h, min_le_right _ _⟩

/-- Claim C9 (confirmed): for every sample count `N`, every seeded draw
stream, and every incoming RNG state, `generate_synthetic_data` returns
exactly `N` rows, every row's price lies in `[50000, 2000000]` and every
row's `area_sqft` lies in `[500, 10000]` (both enforced by `np.clip`
regardless of what the random draws produce), and — because the function
reseeds with the fixed seed 42 on entry — two calls with the same `N` return
identical output whatever RNG states they start from. -/
theorem generate_synthetic_data_spec (draws_of_seed : ℕ → NumpyDraws)
    (s1 s2 : ℕ) (n : ℕ) :
    (generate_synthetic_data draws_of_seed s1 n).length = n ∧
    (∀ row ∈ generate_synthetic_data draws_of_seed s1 n,
      50000 ≤ row.price ∧ row.price ≤ 2000000 ∧
      500 ≤ row.area_sqft ∧ row.area_sqft ≤ 10000) ∧
    generate_synthetic_data draws_of_seed s1 n =
      generate_synthetic_data draws_of_seed s2 n := by
  refine ⟨by simp [generate_synthetic_data], ?_, rfl⟩
  intro row hrow
  simp only [generate_synthetic_data, List.mem_map, List.mem_range] at hrow
  obtain ⟨i, _, hi⟩ := hrow
  subst hi
  refine ⟨(npClip_bounds _ 50000 2000000 (by norm_num)).1,
    (npClip_bounds _ 50000 2000000 (by norm_num)).2,
    (npClip_bounds _ 500 10000 (by norm_num)).1,
    (npClip_bounds _ 500 10000 (by norm_num)).2⟩

/-! ## Lemmas and theorems for claims C2 and C5 (confidence score) -/

lemma npVariance_nonneg (l : List ℝ) : 0 ≤ npVariance l := by
  unfold npVariance
  refine div_nonneg (List.sum_nonneg ?_) (Nat.cast_nonneg _)
  intro y hy
  obtain ⟨x, _, rfl⟩ := List.mem_map.mp hy
  positivity

lemma npStd_pos_of_variance_ne_zero (l : List ℝ) (hv : npVariance l ≠ 0) :
    0 < npStd l :=
  Real.sqrt_pos.mpr (lt_of_le_of_ne (npVariance_nonneg l) (Ne.symm hv))

/-- Claim C5 (failing-input evaluation): on the all-zero importance mapping
`{feature: 0.0}` (with no prediction metrics), `calculate_confidence_score`
computes `std/mean = 0/0 = NaN`, which propagates through `min`, `1 - ·` and
`np.clip`, so the returned confidence is NaN — not a value in `[0, 1]`,
although the code's own comment says the result is clipped to `[0, 1]`. -/
theorem confidence_score_nan_on_zero_importances :
    calculate_confidence_score [0] none = PyFloat.nan := by
  have hmean : npMean [0] = 0 := by simp [npMean]
  have hvar : npVariance [0] = 0 := by simp [npVariance, npMean]
  have hstd : npStd [0] = 0 := by rw [npStd, hvar, Real.sqrt_zero]
  simp [calculate_confidence_score, hstd, hmean, pyDivFin, pyMinOne, pyOneSub,
    npClip01]

/-- Claim C2 (counterexample): the importances `[0, 2]` have mean 1 and
standard deviation 1, so `base_confidence = 1 - min(1/1, 1) = 0`, and the
model's available test R² is `0.8`, so the claim's blended value is
`(0 + 0.8) / 2 = 0.4`; but `predict_price` returns confidence `0`, because
it never passes the metrics to `calculate_confidence_score`. -/
theorem predict_price_confidence_counterexample :
    predict_price_confidence [0, 2] (4/5) = PyFloat.fin 0 ∧
    calculate_confidence_score [0, 2] (some (4/5)) = PyFloat.fin (2/5) ∧
    predict_price_confidence [0, 2] (4/5) ≠
      PyFloat.fin ((1 - min (npStd [0, 2] / npMean [0, 2]) 1 + 4/5) / 2) := by
  have hmean : npMean [0, 2] = 1 := by
    norm_num [npMean]
  have hvar : npVariance [0, 2] = 1 := by
    norm_num [npVariance, hmean]
  have hstd : npStd [0, 2] = 1 := by rw [npStd, hvar, Real.sqrt_one]
  have hdiv : pyDivFin (npStd [0, 2]) (npMean [0, 2]) = PyFloat.fin 1 := by
    rw [hstd, hmean, pyDivFin, if_neg (by norm_num : (1:ℝ) ≠ 0)]
    norm_num
  have hcode : predict_price_confidence [0, 2] (4/5) = PyFloat.fin 0 := by
    simp only [predict_price_confidence, calculate_confidence_score, hdiv,
      pyMinOne, pyOneSub, npClip01]
    norm_num
  refine ⟨hcode, ?_, ?_⟩
  · simp only [calculate_confidence_score, hdiv, pyMinOne, pyOneSub, pyBlend,
      npClip01]
    norm_num
  · rw [hcode, hstd, hmean]
    simp only [ne_eq, PyFloat.fin.injEq]
    norm_num

/-- Claim C2 (amended, proved): for every feature-importance list and
whatever measured test R² is available, the confidence computed by
`predict_price` equals the unblended value
`clip(1 - min(importance_std / importance_mean, 1), 0, 1)` (with the NaN and
infinity edge cases of that formula, and `0.5` for an empty list); the
available test R² is never blended in, because `predict_price` passes no
prediction metrics to `calculate_confidence_score`. -/
theorem predict_price_confidence_no_blend (fi : List ℝ) (r2 : ℝ) :
    predict_price_confidence fi r2 = specNoBlendConfidence fi := by
  cases fi with
  | nil =>
    simp only [predict_price_confidence, calculate_confidence_score,
      specNoBlendConfidence, npClip01, PyFloat.fin.injEq]
    norm_num
  | cons x xs =>
    by_cases hvm : npVariance (x :: xs) = 0 ∧ npMean (x :: xs) = 0
    · obtain ⟨hv, hm⟩ := hvm
      have hstd : npStd (x :: xs) = 0 := by rw [npStd, hv, Real.sqrt_zero]
      have hdiv : pyDivFin (npStd (x :: xs)) (npMean (x :: xs)) = PyFloat.nan := by
        rw [hstd, hm, pyDivFin, if_pos rfl, if_pos rfl]
      simp only [predict_price_confidence, calculate_confidence_score, hdiv,
        pyMinOne, pyOneSub, npClip01, specNoBlendConfidence,
        if_pos (And.intro hv hm)]
    · by_cases hm : npMean (x :: xs) = 0
      · have hv : npVariance (x :: xs) ≠ 0 := fun h => hvm ⟨h, hm⟩
        have hstd : 0 < npStd (x :: xs) := npStd_pos_of_variance_ne_zero _ hv
        have hdiv : pyDivFin (npStd (x :: xs)) (npMean (x :: xs)) = PyFloat.inf := by
          rw [pyDivFin, if_pos hm, if_neg hstd.ne', if_pos hstd]
        simp only [predict_price_confidence, calculate_confidence_score, hdiv,
          pyMinOne, pyOneSub, npClip01, specNoBlendConfidence, if_neg hvm,
          if_pos hm, PyFloat.fin.injEq]
        norm_num
      · have hdiv : pyDivFin (npStd (x :: xs)) (npMean (x :: xs)) =
            PyFloat.fin (npStd (x :: xs) / npMean (x :: xs)) := by
          rw [pyDivFin, if_neg hm]
        simp only [predict_price_confidence, calculate_confidence_score, hdiv,
          pyMinOne, pyOneSub, npClip01, specNoBlendConfidence, if_neg hvm,
          if_neg hm]

end SyntecxHub
